import Mathlib

/-!
Shallow embedding of the backplane-cli configuration subsystem
(src/pkg/cli/config/config.go) in Lean 4.

External collaborators (the OS environment, the filesystem, the viper
key/value store, the OCM environment resolver, and the network) are
modelled as oracle fields of an `Env` record; the control flow of the Go
functions is translated statement by statement.  Go's `(value, err)`
returns become `Except`, the Go runtime panic arising from
`client.Do(nil)` (a nil request dereferences `req.URL` inside
`net/http.Client.do`) is modelled as an explicit exceptional outcome,
and the process-wide mutable `http.DefaultTransport` is threaded as an
explicit `GlobalHTTPState` value.
-/

namespace BackplaneCLI

/-- Constant from pkg/info: name of the env var holding an explicit backplane URL. -/
def BackplaneURLEnvName : String := "BACKPLANE_URL"

/-- Constant from pkg/info: name of the env var holding an explicit proxy URL. -/
def BackplaneProxyEnvName : String := "HTTPS_PROXY"

/-- Constant from pkg/info: name of the env var holding an explicit config file path. -/
def BackplaneConfigPathEnvName : String := "BACKPLANE_CONFIG"

/-- Constant from pkg/info: default config directory below the user home. -/
def BackplaneConfigDefaultFilePath : String := ".config/backplane"

/-- Constant from pkg/info: default config file name. -/
def BackplaneConfigDefaultFileName : String := "config.json"

/-- The struct BackplaneConfiguration of config.go (ProxyURL is a nilable pointer,
modelled as an Option). -/
structure BackplaneConfiguration where
  URL : String
  ProxyURL : Option String
  SessionDirectory : String
  AssumeInitialArn : String
deriving DecidableEq, Repr

/-- Outcome of an HTTP round trip attempted with a well-formed request:
either a transport-level error (DNS, connect, timeout) or a response
carrying a status code. -/
inductive ProbeResult
  | transportError
  | status (code : Nat)
deriving DecidableEq, Repr

/-- A registered OCM environment as seen through pkg/ocm: its name and the
result of its GetBackplaneURL() accessor, which is (url, ok). -/
structure OcmEnvironment where
  name : String
  backplaneURL : Option String
deriving DecidableEq, Repr

/-- Oracle record standing for every external collaborator config.go calls into.
Each field fixes, for one resolution call, the answer the collaborator
would give; the Go code's control flow is then a pure function of it.
The two Bool-parametrised viper getters take the fileLoaded flag: viper
answers from env bindings and, when the config file was read, from the
parsed file as well. -/
structure Env where
  /-- os.LookupEnv -/
  lookupEnv : String → Option String
  /-- os.UserHomeDir -/
  userHomeDir : Except String String
  /-- os.Stat at a path succeeds (err == nil) -/
  statOK : String → Bool
  /-- viper.ReadInConfig succeeds on the existing config file (valid JSON) -/
  readInConfig : Bool
  /-- viper.GetString given whether the config file was loaded -/
  getString : Bool → String → String
  /-- viper.GetStringSlice given whether the config file was loaded -/
  getStringSlice : Bool → String → List String
  /-- ocm.DefaultOCMInterface.GetOCMEnvironment() -/
  ocmEnv : Except String OcmEnvironment
  /-- url.ParseRequestURI on a proxy candidate succeeds -/
  parseRequestURIOK : String → Bool
  /-- http.NewRequest on a target URL succeeds (url.Parse accepts it) -/
  newRequestOK : String → Bool
  /-- the network's answer to a GET through a given proxy candidate:
  probe requestURL proxyCandidate -/
  probe : String → String → ProbeResult
  /-- url.Parse on the configured proxy in the final connection check succeeds -/
  parseURLOK : String → Bool
  /-- the network's answer to the final HEAD request, given the proxy setting
  of the process-wide default transport and the target URL -/
  headOK : Option String → String → Bool
  /-- os.Open at a path succeeds -/
  openOK : String → Bool

/-- GetConfigFilePath of config.go: explicit env-var path if set, else
home joined with the default sub-path and file name (filepath.Join is
modelled as slash-joining). -/
def GetConfigFilePath (e : Env) : Except String String :=
  match e.lookupEnv BackplaneConfigPathEnvName with
  | some path => Except.ok path
  | none =>
    match e.userHomeDir with
    | Except.error err => Except.error err
    | Except.ok home =>
      Except.ok (home ++ "/" ++ BackplaneConfigDefaultFilePath ++ "/" ++ BackplaneConfigDefaultFileName)

/-- getBackplaneEnv of config.go: os.LookupEnv wrapped as (value, ok). -/
def getBackplaneEnv (e : Env) (key : String) : String × Bool :=
  match e.lookupEnv key with
  | some val => (val, true)
  | none => ("", false)

/-- Error outcomes of GetBackplaneConfiguration, one constructor per
return-err site of the Go function. -/
inductive ConfigError
  /-- GetConfigFilePath failed (os.UserHomeDir error) -/
  | pathErr (msg : String)
  /-- viper.ReadInConfig failed: file exists but is not valid JSON -/
  | parseErr
  /-- ocm.DefaultOCMInterface.GetOCMEnvironment returned an error -/
  | ocmErr (msg : String)
  /-- fmt.Errorf "the requested API endpoint is not available for the OCM
  environment: %v" with the environment's name -/
  | noEndpoint (ocmEnvName : String)
  /-- Go runtime panic: clientDo received a nil request built from a
  malformed health URL and client.Do dereferenced req.URL -/
  | panicked
deriving DecidableEq, Repr

/-- GetBackplaneURL method of config.go: queries the OCM environment; if the
environment has no registered backplane URL, fails with an error naming
the environment. -/
def GetBackplaneURL (e : Env) : Except ConfigError String :=
  match e.ocmEnv with
  | Except.error msg => Except.error (ConfigError.ocmErr msg)
  | Except.ok oe =>
    match oe.backplaneURL with
    | none => Except.error (ConfigError.noEndpoint oe.name)
    | some u => Except.ok u

/-- Lines 76-84 of config.go: the explicit BACKPLANE_URL env var has higher
precedence than the OCM environment URL. -/
def determineURL (e : Env) : Except ConfigError String :=
  match getBackplaneEnv e BackplaneURLEnvName with
  | (url, true) => Except.ok url
  | (_, false) => GetBackplaneURL e

/-- http.NewRequest "GET" url nil: some request carrying its URL on success,
none when url.Parse rejects the URL (the Go code discards this error). -/
def httpNewRequest (e : Env) (u : String) : Option String :=
  if e.newRequestOK u then some u else none

/-- Outcome of the clientDo variable of config.go (client.Do wrapped for tests). -/
inductive DoResult
  /-- client.Do dereferences req.URL; with req == nil this is a Go runtime panic -/
  | panicked
  /-- transport-level error returned by client.Do -/
  | errored
  /-- a response carrying its status code -/
  | response (statusCode : Nat)
deriving DecidableEq, Repr

/-- clientDo of config.go applied to a possibly-nil request routed through a
proxy candidate. -/
def clientDo (e : Env) (proxyCandidate : String) (req : Option String) : DoResult :=
  match req with
  | none => DoResult.panicked
  | some u =>
    match e.probe u proxyCandidate with
    | ProbeResult.transportError => DoResult.errored
    | ProbeResult.status c => DoResult.response c

/-- The candidate loop of getFirstWorkingProxyURL (lines 173-192): parse the
candidate (skip on failure), build the GET request for the health URL
(construction error discarded), issue it through the candidate, return
the candidate on status 200, otherwise continue; the empty suffix yields
the empty string.  The error outcome is the Go runtime panic raised by
client.Do on a nil request. -/
def proxyLoop (e : Env) (bpURL : String) : List String → Except Unit String
  | [] => Except.ok ""
  | p :: rest =>
    if e.parseRequestURIOK p then
      match clientDo e p (httpNewRequest e bpURL) with
      | DoResult.panicked => Except.error ()
      | DoResult.errored => proxyLoop e bpURL rest
      | DoResult.response c =>
        if c = 200 then Except.ok p else proxyLoop e bpURL rest
    else
      proxyLoop e bpURL rest

/-- The same loop instrumented with the list of candidates on which clientDo
was actually invoked (a probe was performed), in order. -/
def proxyLoopTrace (e : Env) (bpURL : String) : List String → Except Unit String × List String
  | [] => (Except.ok "", [])
  | p :: rest =>
    if e.parseRequestURIOK p then
      match clientDo e p (httpNewRequest e bpURL) with
      | DoResult.panicked => (Except.error (), [p])
      | DoResult.errored =>
        let r := proxyLoopTrace e bpURL rest
        (r.1, p :: r.2)
      | DoResult.response c =>
        if c = 200 then (Except.ok p, [p])
        else
          let r := proxyLoopTrace e bpURL rest
          (r.1, p :: r.2)
    else
      proxyLoopTrace e bpURL rest

/-- getFirstWorkingProxyURL of config.go: appends "/healthz" to the
configured URL and runs the candidate loop. -/
def getFirstWorkingProxyURL (e : Env) (configURL : String) (s : List String) : Except Unit String :=
  proxyLoop e (configURL ++ "/healthz") s

/-- getFirstWorkingProxyURL with the probe trace. -/
def getFirstWorkingProxyURLTrace (e : Env) (configURL : String) (s : List String) :
    Except Unit String × List String :=
  proxyLoopTrace e (configURL ++ "/healthz") s

/-- Lines 75-98 of config.go, after the config file handling: resolve the
URL, read session-dir and assume-initial-arn from viper, read the proxy
candidate list and run proxy selection; an empty selection leaves
ProxyURL nil (with a warning only). -/
def resolveAfterLoad (e : Env) (fileLoaded : Bool) : Except ConfigError BackplaneConfiguration :=
  match determineURL e with
  | Except.error er => Except.error er
  | Except.ok url =>
    let sessionDirectory := e.getString fileLoaded "session-dir"
    let assumeInitialArn := e.getString fileLoaded "assume-initial-arn"
    let proxyInConfigFile := e.getStringSlice fileLoaded "proxy-url"
    match getFirstWorkingProxyURL e url proxyInConfigFile with
    | Except.error _ => Except.error ConfigError.panicked
    | Except.ok proxyURL =>
      Except.ok
        { URL := url
          ProxyURL := if proxyURL ≠ "" then some proxyURL else none
          SessionDirectory := sessionDirectory
          AssumeInitialArn := assumeInitialArn }

/-- GetBackplaneConfiguration of config.go: compute the config file path;
if a file exists at that path, load it through viper (a parse failure is fatal);
then resolve the remaining fields.  viper.BindEnv with a nonempty key
list always returns nil and the deprecation warning for a url key in the
file is observability only, so neither appears as control flow here. -/
def GetBackplaneConfiguration (e : Env) : Except ConfigError BackplaneConfiguration :=
  match GetConfigFilePath e with
  | Except.error msg => Except.error (ConfigError.pathErr msg)
  | Except.ok filePath =>
    if e.statOK filePath then
      if e.readInConfig then
        resolveAfterLoad e true
      else
        Except.error ConfigError.parseErr
    else
      resolveAfterLoad e false

/-- The three logger.Warn messages of verifyBackplaneConfiguration, one tag
per empty field warned about (lines 121-129). -/
inductive VerifyWarning
  | urlMissing
  | sessionDirMissing
  | arnMissing
deriving DecidableEq, Repr

/-- Error outcomes of verifyBackplaneConfiguration: the shared err variable
as returned.  The inner err of the dump block (os.Open, io.Copy) is a
shadowed variable; only the os.Open failure is returned from inside the
block, an io.Copy failure is printed and dropped. -/
inductive VerifyError
  /-- GetConfigFilePath failed -/
  | pathErr (msg : String)
  /-- the os.Stat assignment to the outer err, returned at the end when the
  config file does not exist -/
  | statErr
  /-- os.Open failed inside the dump block and was returned directly -/
  | openErr
deriving DecidableEq, Repr

/-- Observable effects and return value of one verifyBackplaneConfiguration
call: which warnings were logged, whether the remediation template block
ran, which file operations were attempted, and the returned error. -/
structure VerifyResult where
  warnings : List VerifyWarning
  /-- the fmt.Println remediation-template block ran (the mandatory-field
  branch was taken: the configuration was reported invalid) -/
  printedTemplate : Bool
  /-- os.Stat was invoked on the config file -/
  stattedFile : Bool
  /-- os.Open was invoked on the config file -/
  openedFile : Bool
  /-- io.Copy dumped the config file to stdout -/
  dumpedFile : Bool
  /-- the err value returned by the function -/
  result : Except VerifyError Unit
deriving Repr

/-- verifyBackplaneConfiguration of config.go (lines 103-160): compute the
config file path, warn on each empty field, and when a mandatory field
(url or assume-initial-arn) is empty print the remediation template and
dump the existing config file; the returned err is whatever the outer
err variable last held (the stat result in the mandatory branch, nil in
the else branch), except that an os.Open failure returns early. -/
def verifyBackplaneConfiguration (e : Env) (bpConfig : BackplaneConfiguration) : VerifyResult :=
  match GetConfigFilePath e with
  | Except.error msg =>
    { warnings := [], printedTemplate := false, stattedFile := false,
      openedFile := false, dumpedFile := false,
      result := Except.error (VerifyError.pathErr msg) }
  | Except.ok filePath =>
    let urlStringLen := bpConfig.URL.length
    let sessionDirectoryLen := bpConfig.SessionDirectory.length
    let assumeInitialArnLen := bpConfig.AssumeInitialArn.length
    let warnings :=
      (if urlStringLen = 0 then [VerifyWarning.urlMissing] else []) ++
      (if sessionDirectoryLen = 0 then [VerifyWarning.sessionDirMissing] else []) ++
      (if assumeInitialArnLen = 0 then [VerifyWarning.arnMissing] else [])
    if urlStringLen = 0 ∨ assumeInitialArnLen = 0 then
      if e.statOK filePath then
        if e.openOK filePath then
          { warnings := warnings, printedTemplate := true, stattedFile := true,
            openedFile := true, dumpedFile := true, result := Except.ok () }
        else
          { warnings := warnings, printedTemplate := true, stattedFile := true,
            openedFile := true, dumpedFile := false,
            result := Except.error VerifyError.openErr }
      else
        { warnings := warnings, printedTemplate := true, stattedFile := true,
          openedFile := false, dumpedFile := false,
          result := Except.error VerifyError.statErr }
    else
      { warnings := warnings, printedTemplate := false, stattedFile := false,
        openedFile := false, dumpedFile := false, result := Except.ok () }

/-- The process-wide http.DefaultTransport: none is the stock transport,
some p means it has been replaced by a Transport pinned to proxy p. -/
structure GlobalHTTPState where
  defaultTransportProxy : Option String
deriving DecidableEq, Repr

/-- Error outcomes of testHTTPRequestToBackplaneAPI. -/
inductive ConnError
  /-- url.Parse rejected the configured proxy -/
  | proxyParseErr
  /-- http.NewRequest rejected the configured URL -/
  | newRequestErr
  /-- client.Do returned a transport-level error -/
  | transportErr
deriving DecidableEq, Repr

/-- testHTTPRequestToBackplaneAPI of config.go (lines 244-267): when a proxy
is configured, parse it and assign a proxy-pinned Transport to the
process-wide http.DefaultTransport; then issue a HEAD request to the
configured URL with a client whose own Transport is nil, so the request
goes through whatever http.DefaultTransport now holds.  Returns the Go
pair (ok, err) together with the global transport state after the call. -/
def testHTTPRequestToBackplaneAPI (e : Env) (g : GlobalHTTPState)
    (config : BackplaneConfiguration) : (Bool × Option ConnError) × GlobalHTTPState :=
  match config.ProxyURL with
  | some proxyStr =>
    if e.parseURLOK proxyStr then
      let g2 : GlobalHTTPState := { defaultTransportProxy := some proxyStr }
      if e.newRequestOK config.URL then
        if e.headOK g2.defaultTransportProxy config.URL then
          ((true, none), g2)
        else
          ((false, some ConnError.transportErr), g2)
      else
        ((false, some ConnError.newRequestErr), g2)
    else
      ((false, some ConnError.proxyParseErr), g)
  | none =>
    if e.newRequestOK config.URL then
      if e.headOK g.defaultTransportProxy config.URL then
        ((true, none), g)
      else
        ((false, some ConnError.transportErr), g)
    else
      ((false, some ConnError.newRequestErr), g)

/-- CheckAPIConnection of config.go (lines 231-241): run the test request
and surface its error exactly when the connection was not ok. -/
def CheckAPIConnection (e : Env) (g : GlobalHTTPState)
    (config : BackplaneConfiguration) : Option ConnError × GlobalHTTPState :=
  let r := testHTTPRequestToBackplaneAPI e g config
  match r.1.1 with
  | true => (none, r.2)
  | false => (r.1.2, r.2)

/-- A proxy candidate the loop skips: its URL fails to parse, or the health
request was built and the probe answered with a transport-level error or a
status other than 200. -/
def candidateFails (e : Env) (bpURL p : String) : Prop :=
  e.parseRequestURIOK p = false ∨
    (e.newRequestOK bpURL = true ∧
      (e.probe bpURL p = ProbeResult.transportError ∨
        ∃ c, e.probe bpURL p = ProbeResult.status c ∧ c ≠ 200))

/-- A proxy candidate the loop accepts: its URL parses, the health request
was built, and the probe through it answered status 200. -/
def candidateSucceeds (e : Env) (bpURL p : String) : Prop :=
  e.parseRequestURIOK p = true ∧ e.newRequestOK bpURL = true ∧
    e.probe bpURL p = ProbeResult.status 200

theorem proxyLoopTrace_fst (e : Env) (bpURL : String) :
    ∀ s : List String, (proxyLoopTrace e bpURL s).1 = proxyLoop e bpURL s := by
  intro s
  induction s with
  | nil => rfl
  | cons p rest ih =>
    simp only [proxyLoopTrace, proxyLoop]
    by_cases hp : e.parseRequestURIOK p = true
    · simp only [hp, if_true]
      cases hdo : clientDo e p (httpNewRequest e bpURL) with
      | panicked => rfl
      | errored => simpa using ih
      | response c =>
        by_cases hc : c = 200
        · simp [hc]
        · simpa [hc] using ih
    · simp only [hp]
      simpa using ih

theorem proxyLoop_skip (e : Env) (bpURL p : String) (rest : List String)
    (h : candidateFails e bpURL p) :
    proxyLoop e bpURL (p :: rest) = proxyLoop e bpURL rest := by
  simp only [proxyLoop]
  by_cases hp : e.parseRequestURIOK p = true
  · rcases h with hpf | ⟨hreq, hfail⟩
    · rw [hpf] at hp; exact absurd hp (by simp)
    · rcases hfail with ht | ⟨c, hc, hne⟩
      · simp [hp, clientDo, httpNewRequest, hreq, ht]
      · simp [hp, clientDo, httpNewRequest, hreq, hc, hne]
  · simp [hp]

theorem proxyLoopTrace_skip (e : Env) (bpURL p : String) (rest : List String)
    (h : candidateFails e bpURL p) :
    proxyLoopTrace e bpURL (p :: rest) =
      ((proxyLoopTrace e bpURL rest).1,
        (if e.parseRequestURIOK p then [p] else []) ++ (proxyLoopTrace e bpURL rest).2) := by
  simp only [proxyLoopTrace]
  by_cases hp : e.parseRequestURIOK p = true
  · rcases h with hpf | ⟨hreq, hfail⟩
    · rw [hpf] at hp; exact absurd hp (by simp)
    · rcases hfail with ht | ⟨c, hc, hne⟩
      · simp [hp, clientDo, httpNewRequest, hreq, ht]
      · simp [hp, clientDo, httpNewRequest, hreq, hc, hne]
  · simp [hp]

theorem proxyLoop_all_fail (e : Env) (bpURL : String) (s : List String)
    (h : ∀ q ∈ s, candidateFails e bpURL q) :
    proxyLoop e bpURL s = Except.ok "" := by
  induction s with
  | nil => rfl
  | cons q rest ih =>
    rw [proxyLoop_skip e bpURL q rest (h q (by simp))]
    exact ih fun x hx => h x (by simp [hx])

theorem proxyLoopTrace_append_fails (e : Env) (bpURL : String) (s1 : List String)
    (h : ∀ q ∈ s1, candidateFails e bpURL q) (l : List String) :
    proxyLoopTrace e bpURL (s1 ++ l) =
      ((proxyLoopTrace e bpURL l).1,
        s1.filter (fun q => e.parseRequestURIOK q) ++ (proxyLoopTrace e bpURL l).2) := by
  induction s1 with
  | nil => simp
  | cons q s1 ih =>
    have hq := h q (by simp)
    rw [List.cons_append, proxyLoopTrace_skip e bpURL q (s1 ++ l) hq,
      ih fun x hx => h x (by simp [hx])]
    by_cases hp : e.parseRequestURIOK q = true
    · simp [hp]
    · simp [hp]

theorem proxyLoopTrace_head_success (e : Env) (bpURL p : String) (rest : List String)
    (h : candidateSucceeds e bpURL p) :
    proxyLoopTrace e bpURL (p :: rest) = (Except.ok p, [p]) := by
  rcases h with ⟨hp, hreq, hprobe⟩
  simp only [proxyLoopTrace]
  simp [hp, clientDo, httpNewRequest, hreq, hprobe]

theorem proxyLoop_ok_sound (e : Env) (bpURL : String) :
    ∀ (s : List String) (p : String), proxyLoop e bpURL s = Except.ok p → p ≠ "" →
      p ∈ s ∧ candidateSucceeds e bpURL p := by
  intro s
  induction s with
  | nil =>
    intro p h hne
    simp only [proxyLoop, Except.ok.injEq] at h
    exact absurd h.symm hne
  | cons q rest ih =>
    intro p h hne
    simp only [proxyLoop] at h
    by_cases hq : e.parseRequestURIOK q = true
    · rw [if_pos hq] at h
      cases hdo : clientDo e q (httpNewRequest e bpURL) with
      | panicked => rw [hdo] at h; exact absurd h (by simp)
      | errored =>
        rw [hdo] at h
        simp only [] at h
        have := ih p h hne
        exact ⟨by simp [this.1], this.2⟩
      | response c =>
        rw [hdo] at h
        simp only [] at h
        by_cases hc : c = 200
        · rw [if_pos hc] at h
          simp only [Except.ok.injEq] at h
          rcases h with rfl
          refine ⟨by simp, hq, ?_⟩
          simp only [clientDo, httpNewRequest] at hdo
          by_cases hreq : e.newRequestOK bpURL = true
          · rw [if_pos hreq] at hdo
            simp only [] at hdo
            refine ⟨hreq, ?_⟩
            cases hpr : e.probe bpURL q with
            | transportError => rw [hpr] at hdo; exact absurd hdo (by simp)
            | status c2 =>
              rw [hpr] at hdo
              simp only [DoResult.response.injEq] at hdo
              rw [hdo, hc]
          · rw [if_neg hreq] at hdo
            simp only [] at hdo
            exact absurd hdo (by simp)
        · rw [if_neg hc] at h
          have := ih p h hne
          exact ⟨by simp [this.1], this.2⟩
    · rw [if_neg hq] at h
      have := ih p h hne
      exact ⟨by simp [this.1], this.2⟩

theorem determineURL_env_some (e : Env) (v : String)
    (h : e.lookupEnv BackplaneURLEnvName = some v) :
    determineURL e = Except.ok v := by
  simp only [determineURL, getBackplaneEnv, h]

theorem determineURL_noEndpoint (e : Env) (oe : OcmEnvironment)
    (h1 : e.lookupEnv BackplaneURLEnvName = none)
    (h2 : e.ocmEnv = Except.ok oe) (h3 : oe.backplaneURL = none) :
    determineURL e = Except.error (ConfigError.noEndpoint oe.name) := by
  simp only [determineURL, getBackplaneEnv, h1, GetBackplaneURL, h2, h3]

theorem determineURL_ne_parseErr (e : Env) :
    determineURL e ≠ Except.error ConfigError.parseErr := by
  simp only [determineURL, getBackplaneEnv]
  cases he : e.lookupEnv BackplaneURLEnvName with
  | some v => simp
  | none =>
    simp only [GetBackplaneURL]
    cases ho : e.ocmEnv with
    | error m => simp
    | ok oe =>
      cases hb : oe.backplaneURL with
      | none => simp [hb]
      | some u => simp [hb]

theorem resolveAfterLoad_url_error (e : Env) (fl : Bool) (er : ConfigError)
    (h : determineURL e = Except.error er) :
    resolveAfterLoad e fl = Except.error er := by
  simp only [resolveAfterLoad, h]

theorem resolveAfterLoad_ok_url (e : Env) (fl : Bool) (cfg : BackplaneConfiguration)
    (v : String) (hurl : determineURL e = Except.ok v)
    (hok : resolveAfterLoad e fl = Except.ok cfg) : cfg.URL = v := by
  simp only [resolveAfterLoad, hurl] at hok
  cases hg : getFirstWorkingProxyURL e v (e.getStringSlice fl "proxy-url") with
  | error u => rw [hg] at hok; exact absurd hok (by simp)
  | ok pr =>
    rw [hg] at hok
    simp only [Except.ok.injEq] at hok
    rcases hok with rfl
    rfl

theorem resolveAfterLoad_ne_parseErr (e : Env) (fl : Bool) :
    resolveAfterLoad e fl ≠ Except.error ConfigError.parseErr := by
  simp only [resolveAfterLoad]
  cases hu : determineURL e with
  | error er =>
    intro hcon
    simp only [Except.error.injEq] at hcon
    rw [hcon] at hu
    exact determineURL_ne_parseErr e hu
  | ok url =>
    cases hg : getFirstWorkingProxyURL e url (e.getStringSlice fl "proxy-url") with
    | error u => simp [hg]
    | ok pr => simp [hg]

theorem resolveAfterLoad_proxy_sound (e : Env) (fl : Bool) (cfg : BackplaneConfiguration)
    (p : String) (hok : resolveAfterLoad e fl = Except.ok cfg)
    (hp : cfg.ProxyURL = some p) :
    candidateSucceeds e (cfg.URL ++ "/healthz") p ∧
      p ∈ e.getStringSlice fl "proxy-url" := by
  simp only [resolveAfterLoad] at hok
  cases hu : determineURL e with
  | error er => rw [hu] at hok; exact absurd hok (by simp)
  | ok url =>
    rw [hu] at hok
    simp only [] at hok
    cases hg : getFirstWorkingProxyURL e url (e.getStringSlice fl "proxy-url") with
    | error u => rw [hg] at hok; exact absurd hok (by simp)
    | ok pr =>
      rw [hg] at hok
      simp only [Except.ok.injEq] at hok
      rcases hok with rfl
      simp only [] at hp
      by_cases hpr : pr = ""
      · rw [if_neg (by simp [hpr])] at hp
        exact absurd hp (by simp)
      · rw [if_pos hpr] at hp
        simp only [Option.some.injEq] at hp
        rcases hp with rfl
        simp only [getFirstWorkingProxyURL] at hg
        have h := proxyLoop_ok_sound e (url ++ "/healthz") _ pr hg hpr
        exact ⟨h.2, h.1⟩

theorem GetBackplaneConfiguration_eq_resolve (e : Env) (fp : String)
    (hfp : GetConfigFilePath e = Except.ok fp)
    (hload : e.statOK fp = true → e.readInConfig = true) :
    GetBackplaneConfiguration e = resolveAfterLoad e (e.statOK fp) := by
  simp only [GetBackplaneConfiguration, hfp]
  by_cases hs : e.statOK fp = true
  · simp [hs, hload hs]
  · simp only [Bool.not_eq_true] at hs
    simp [hs]

theorem proxyLoop_congr (e e' : Env)
    (hp : e'.parseRequestURIOK = e.parseRequestURIOK)
    (hn : e'.newRequestOK = e.newRequestOK)
    (hpr : e'.probe = e.probe) :
    ∀ (bpURL : String) (s : List String), proxyLoop e' bpURL s = proxyLoop e bpURL s := by
  intro bpURL s
  induction s with
  | nil => rfl
  | cons q rest ih =>
    simp only [proxyLoop, clientDo, httpNewRequest, hp, hn, hpr, ih]

theorem resolveAfterLoad_congr (e e' : Env)
    (hl : e'.lookupEnv = e.lookupEnv) (ho : e'.ocmEnv = e.ocmEnv)
    (hg : e'.getString = e.getString) (hgs : e'.getStringSlice = e.getStringSlice)
    (hp : e'.parseRequestURIOK = e.parseRequestURIOK)
    (hn : e'.newRequestOK = e.newRequestOK) (hpr : e'.probe = e.probe) (fl : Bool) :
    resolveAfterLoad e' fl = resolveAfterLoad e fl := by
  have hd : determineURL e' = determineURL e := by
    simp only [determineURL, getBackplaneEnv, GetBackplaneURL, hl, ho]
  simp only [resolveAfterLoad, hd, hg, hgs, getFirstWorkingProxyURL,
    proxyLoop_congr e e' hp hn hpr]

theorem resolveAfterLoad_ocm_indep (e : Env) (o : Except String OcmEnvironment)
    (v : String) (hurl : e.lookupEnv BackplaneURLEnvName = some v) (fl : Bool) :
    resolveAfterLoad { e with ocmEnv := o } fl = resolveAfterLoad e fl := by
  have h1 : determineURL { e with ocmEnv := o } = Except.ok v :=
    determineURL_env_some _ v hurl
  have h2 : determineURL e = Except.ok v := determineURL_env_some e v hurl
  simp only [resolveAfterLoad, h1, h2, getFirstWorkingProxyURL]
  rw [proxyLoop_congr e { e with ocmEnv := o } rfl rfl rfl (v ++ "/healthz")
    (e.getStringSlice fl "proxy-url")]

theorem GetBackplaneConfiguration_ocm_indep (e : Env) (o : Except String OcmEnvironment)
    (v : String) (hurl : e.lookupEnv BackplaneURLEnvName = some v) :
    GetBackplaneConfiguration { e with ocmEnv := o } = GetBackplaneConfiguration e := by
  have hsame : GetConfigFilePath { e with ocmEnv := o } = GetConfigFilePath e := rfl
  simp only [GetBackplaneConfiguration, hsame]
  cases hf : GetConfigFilePath e with
  | error m => rfl
  | ok fp =>
    have h1 := resolveAfterLoad_ocm_indep e o v hurl true
    have h2 := resolveAfterLoad_ocm_indep e o v hurl false
    by_cases hs : e.statOK fp = true
    · by_cases hr : e.readInConfig = true
      · simpa [hs, hr] using h1
      · simp [hs, hr]
    · simp only [Bool.not_eq_true] at hs
      simpa [hs] using h2

/-- A working proxy candidate used by the concrete environments below. -/
def goodProxy : String := "http://proxy.example.com:3128"

/-- A second proxy candidate that would also answer 200 if probed. -/
def secondProxy : String := "http://proxy2.example.com:3128"

/-- A concrete environment: explicit config path and backplane URL set, no
config file on disk, one proxy candidate that parses and probes 200. -/
def baseEnv : Env where
  lookupEnv := fun k =>
    if k = BackplaneConfigPathEnvName then some "/home/user/.config/backplane/config.json"
    else if k = BackplaneURLEnvName then some "https://api.example.com"
    else none
  userHomeDir := Except.ok "/home/user"
  statOK := fun _ => false
  readInConfig := true
  getString := fun _ _ => ""
  getStringSlice := fun _ k => if k = "proxy-url" then [goodProxy] else []
  ocmEnv := Except.ok { name := "production", backplaneURL := some "https://api.ocm.example.com" }
  parseRequestURIOK := fun p => p == goodProxy
  newRequestOK := fun _ => true
  probe := fun _ _ => ProbeResult.status 200
  parseURLOK := fun _ => true
  headOK := fun _ _ => true
  openOK := fun _ => true

/-- The configuration baseEnv resolves to. -/
def baseCfg : BackplaneConfiguration :=
  { URL := "https://api.example.com", ProxyURL := some goodProxy,
    SessionDirectory := "", AssumeInitialArn := "" }

/-- baseEnv without the explicit URL env var and with an OCM environment
that has no registered backplane URL. -/
def noEndpointEnv : Env :=
  { baseEnv with
    lookupEnv := fun k =>
      if k = BackplaneConfigPathEnvName then some "/home/user/.config/backplane/config.json"
      else none
    ocmEnv := Except.ok { name := "production", backplaneURL := none } }

/-- baseEnv where every candidate parses (and every probe answers 200). -/
def allGoodEnv : Env :=
  { baseEnv with parseRequestURIOK := fun _ => true }

/-- baseEnv with an empty proxy candidate list. -/
def noProxyEnv : Env :=
  { baseEnv with getStringSlice := fun _ _ => [] }

/-- baseEnv with a config file present on disk. -/
def fileEnv : Env :=
  { baseEnv with statOK := fun _ => true }

/-- baseEnv with a config file present that fails JSON parsing. -/
def badJSONEnv : Env :=
  { baseEnv with statOK := fun _ => true, readInConfig := false }

/-- baseEnv where the health URL is rejected by request construction (the
service URL ":" yields ":/healthz", which url.Parse rejects) while the
proxy candidate itself parses. -/
def badHealthURLEnv : Env :=
  { baseEnv with newRequestOK := fun _ => false, parseRequestURIOK := fun _ => true }

/-- A configuration with both mandatory fields empty. -/
def emptyCfg : BackplaneConfiguration :=
  { URL := "", ProxyURL := none, SessionDirectory := "", AssumeInitialArn := "" }

/-- A configuration whose only empty field is SessionDirectory. -/
def sessionOnlyEmptyCfg : BackplaneConfiguration :=
  { URL := "https://api.example.com", ProxyURL := none, SessionDirectory := "",
    AssumeInitialArn := "arn:aws:iam::123456789012:role/Support" }

/-- C1: for every configuration returned by GetBackplaneConfiguration, a
present proxyURL was positively confirmed by the prober during that
resolution call: that exact candidate parsed, the GET request for
serviceURL ++ "/healthz" was built, and the probe through that candidate
answered HTTP 200; and the candidate came from the proxy-url list, never
from configuration alone without a successful probe. -/
theorem proxyURL_requires_successful_probe (e : Env) (cfg : BackplaneConfiguration)
    (p : String) (hok : GetBackplaneConfiguration e = Except.ok cfg)
    (hp : cfg.ProxyURL = some p) :
    candidateSucceeds e (cfg.URL ++ "/healthz") p ∧
      ∃ fileLoaded, p ∈ e.getStringSlice fileLoaded "proxy-url" := by
  simp only [GetBackplaneConfiguration] at hok
  cases hfp : GetConfigFilePath e with
  | error m => rw [hfp] at hok; exact absurd hok (by simp)
  | ok fp =>
    rw [hfp] at hok
    simp only [] at hok
    by_cases hs : e.statOK fp = true
    · rw [if_pos hs] at hok
      by_cases hr : e.readInConfig = true
      · rw [if_pos hr] at hok
        have h := resolveAfterLoad_proxy_sound e true cfg p hok hp
        exact ⟨h.1, true, h.2⟩
      · rw [if_neg hr] at hok
        exact absurd hok (by simp)
    · rw [if_neg hs] at hok
      have h := resolveAfterLoad_proxy_sound e false cfg p hok hp
      exact ⟨h.1, false, h.2⟩

/-- Witness for C1 at a concrete environment whose single candidate probes 200. -/
theorem proxyURL_requires_successful_probe_witness :
    candidateSucceeds baseEnv (baseCfg.URL ++ "/healthz") goodProxy ∧
      ∃ fileLoaded, goodProxy ∈ baseEnv.getStringSlice fileLoaded "proxy-url" :=
  proxyURL_requires_successful_probe baseEnv baseCfg goodProxy rfl rfl

/-- C2: when the explicit BACKPLANE_URL env var is set, resolution uses its
value verbatim and its outcome is independent of the OCM environment
resolver (discovery is bypassed); when it is unset and the resolver
reports no registered URL, resolution fails with the error naming the OCM
environment. -/
theorem url_env_override_and_no_endpoint_error (e : Env) (v fp : String)
    (oe : OcmEnvironment)
    (hfp : GetConfigFilePath e = Except.ok fp)
    (hload : e.statOK fp = true → e.readInConfig = true) :
    (e.lookupEnv BackplaneURLEnvName = some v →
      (∀ o, GetBackplaneConfiguration { e with ocmEnv := o } =
        GetBackplaneConfiguration e) ∧
      (∀ cfg, GetBackplaneConfiguration e = Except.ok cfg → cfg.URL = v)) ∧
    (e.lookupEnv BackplaneURLEnvName = none → e.ocmEnv = Except.ok oe →
      oe.backplaneURL = none →
      GetBackplaneConfiguration e = Except.error (ConfigError.noEndpoint oe.name)) := by
  constructor
  · intro hurl
    refine ⟨fun o => GetBackplaneConfiguration_ocm_indep e o v hurl, fun cfg hok => ?_⟩
    rw [GetBackplaneConfiguration_eq_resolve e fp hfp hload] at hok
    exact resolveAfterLoad_ok_url e _ cfg v (determineURL_env_some e v hurl) hok
  · intro hnone hocm hbp
    rw [GetBackplaneConfiguration_eq_resolve e fp hfp hload]
    exact resolveAfterLoad_url_error e _ _ (determineURL_noEndpoint e oe hnone hocm hbp)

/-- Witness for C2: an OCM outage does not change the result when the env
var is set, and a missing endpoint fails with the environment's name. -/
theorem url_env_override_and_no_endpoint_error_witness :
    (GetBackplaneConfiguration { baseEnv with ocmEnv := Except.error "ocm down" } =
      GetBackplaneConfiguration baseEnv) ∧
    GetBackplaneConfiguration noEndpointEnv =
      Except.error (ConfigError.noEndpoint "production") :=
  ⟨((url_env_override_and_no_endpoint_error baseEnv "https://api.example.com"
      "/home/user/.config/backplane/config.json"
      ⟨"production", some "https://api.ocm.example.com"⟩ rfl
      (fun h => absurd h (by decide))).1 rfl).1 (Except.error "ocm down"),
   (url_env_override_and_no_endpoint_error noEndpointEnv ""
      "/home/user/.config/backplane/config.json"
      ⟨"production", none⟩ rfl
      (fun h => absurd h (by decide))).2 rfl rfl rfl⟩

/-- C3: with every candidate before p failing and p probing 200, selection
returns p, and the instrumented loop shows the probes performed were
exactly the parseable failing candidates before p followed by p itself:
no candidate after p is ever probed. -/
theorem first_success_wins_no_later_probe (e : Env) (u p : String) (s1 s2 : List String)
    (hfail : ∀ q ∈ s1, candidateFails e (u ++ "/healthz") q)
    (hp : candidateSucceeds e (u ++ "/healthz") p) :
    getFirstWorkingProxyURL e u (s1 ++ p :: s2) = Except.ok p ∧
      getFirstWorkingProxyURLTrace e u (s1 ++ p :: s2) =
        (Except.ok p, s1.filter (fun q => e.parseRequestURIOK q) ++ [p]) := by
  have htr := proxyLoopTrace_append_fails e (u ++ "/healthz") s1 hfail (p :: s2)
  rw [proxyLoopTrace_head_success e (u ++ "/healthz") p s2 hp] at htr
  simp only [] at htr
  constructor
  · rw [getFirstWorkingProxyURL, ← proxyLoopTrace_fst, htr]
  · rw [getFirstWorkingProxyURLTrace, htr]

/-- Witness for C3: the first candidate answers 200, the second would too,
yet only the first is probed. -/
theorem first_success_wins_no_later_probe_witness :
    getFirstWorkingProxyURL allGoodEnv "https://api.example.com"
        [goodProxy, secondProxy] = Except.ok goodProxy ∧
      getFirstWorkingProxyURLTrace allGoodEnv "https://api.example.com"
        [goodProxy, secondProxy] = (Except.ok goodProxy, [goodProxy]) := by
  have h := first_success_wins_no_later_probe allGoodEnv "https://api.example.com"
    goodProxy [] [secondProxy] (fun q hq => absurd hq (List.not_mem_nil q))
    ⟨rfl, rfl, rfl⟩
  simpa using h

/-- C4: a candidate that fails parsing, fails at transport level, or answers
a status other than 200 is skipped and the loop proceeds to the next;
exhausting the candidate list this way (the empty list included) yields
the empty selection rather than an error, and resolution still succeeds
with ProxyURL absent. -/
theorem failed_candidates_skipped_resolution_succeeds (e : Env) (fp u : String)
    (hfp : GetConfigFilePath e = Except.ok fp)
    (hload : e.statOK fp = true → e.readInConfig = true)
    (hurl : determineURL e = Except.ok u)
    (hall : ∀ q ∈ e.getStringSlice (e.statOK fp) "proxy-url",
      candidateFails e (u ++ "/healthz") q) :
    (∀ p rest, candidateFails e (u ++ "/healthz") p →
      proxyLoop e (u ++ "/healthz") (p :: rest) = proxyLoop e (u ++ "/healthz") rest) ∧
    getFirstWorkingProxyURL e u (e.getStringSlice (e.statOK fp) "proxy-url") =
      Except.ok "" ∧
    GetBackplaneConfiguration e = Except.ok
      { URL := u, ProxyURL := none,
        SessionDirectory := e.getString (e.statOK fp) "session-dir",
        AssumeInitialArn := e.getString (e.statOK fp) "assume-initial-arn" } := by
  refine ⟨fun p rest h => proxyLoop_skip e _ p rest h,
    proxyLoop_all_fail e _ _ hall, ?_⟩
  rw [GetBackplaneConfiguration_eq_resolve e fp hfp hload]
  simp only [resolveAfterLoad, hurl, getFirstWorkingProxyURL,
    proxyLoop_all_fail e _ _ hall]
  simp

/-- Witness for C4: the empty candidate list resolves with ProxyURL absent. -/
theorem failed_candidates_skipped_resolution_succeeds_witness :
    GetBackplaneConfiguration noProxyEnv = Except.ok
      { URL := "https://api.example.com", ProxyURL := none,
        SessionDirectory := "", AssumeInitialArn := "" } :=
  (failed_candidates_skipped_resolution_succeeds noProxyEnv
    "/home/user/.config/backplane/config.json" "https://api.example.com"
    rfl (fun h => absurd h (by decide)) rfl
    (fun q hq => absurd hq (List.not_mem_nil q))).2.2

/-- C5: when no file exists at the config path, resolution proceeds on
environment-only values and cannot fail with the parse error (the outcome
does not even depend on whether parsing would succeed); when a file
exists but is not valid JSON, resolution fails with the parse error. -/
theorem absent_file_ok_invalid_json_fatal (e : Env) (fp : String)
    (hfp : GetConfigFilePath e = Except.ok fp) :
    (e.statOK fp = false →
      (∀ b, GetBackplaneConfiguration { e with readInConfig := b } =
        GetBackplaneConfiguration e) ∧
      GetBackplaneConfiguration e ≠ Except.error ConfigError.parseErr) ∧
    (e.statOK fp = true → e.readInConfig = false →
      GetBackplaneConfiguration e = Except.error ConfigError.parseErr) := by
  constructor
  · intro hs
    constructor
    · intro b
      have hfp2 : GetConfigFilePath { e with readInConfig := b } = Except.ok fp := hfp
      simp only [GetBackplaneConfiguration, hfp, hfp2]
      have hs2 : ({ e with readInConfig := b } : Env).statOK fp = false := hs
      simp only [hs, hs2]
      simp only [Bool.false_eq_true, if_false]
      exact resolveAfterLoad_congr e { e with readInConfig := b }
        rfl rfl rfl rfl rfl rfl rfl false
    · intro hcon
      rw [GetBackplaneConfiguration_eq_resolve e fp hfp
        (fun h => absurd hs (by simp [h]))] at hcon
      exact resolveAfterLoad_ne_parseErr e _ hcon
  · intro hs hr
    simp only [GetBackplaneConfiguration, hfp]
    simp [hs, hr]

/-- Witness for C5: a missing file ignores JSON validity, and a present but
invalid file is fatal. -/
theorem absent_file_ok_invalid_json_fatal_witness :
    GetBackplaneConfiguration { baseEnv with readInConfig := false } =
      GetBackplaneConfiguration baseEnv ∧
    GetBackplaneConfiguration badJSONEnv = Except.error ConfigError.parseErr :=
  ⟨((absent_file_ok_invalid_json_fatal baseEnv
      "/home/user/.config/backplane/config.json" rfl).1 rfl).1 false,
   (absent_file_ok_invalid_json_fatal badJSONEnv
      "/home/user/.config/backplane/config.json" rfl).2 rfl rfl⟩

/-- C6: validation treats exactly the URL and the assume-role ARN as
mandatory: with both empty the remediation branch runs (invalid) and both
warnings are logged (flagged missing); with both non-empty — in
particular when the only empty field is SessionDirectory — the
remediation branch does not run and the returned error is nil (valid). -/
theorem mandatory_fields_url_and_arn (e : Env) (cfg : BackplaneConfiguration)
    (fp : String) (hfp : GetConfigFilePath e = Except.ok fp) :
    (cfg.URL.length = 0 → cfg.AssumeInitialArn.length = 0 →
      (verifyBackplaneConfiguration e cfg).printedTemplate = true ∧
        VerifyWarning.urlMissing ∈ (verifyBackplaneConfiguration e cfg).warnings ∧
        VerifyWarning.arnMissing ∈ (verifyBackplaneConfiguration e cfg).warnings) ∧
    (cfg.URL.length ≠ 0 → cfg.AssumeInitialArn.length ≠ 0 →
      (verifyBackplaneConfiguration e cfg).printedTemplate = false ∧
        (verifyBackplaneConfiguration e cfg).result = Except.ok ()) := by
  simp only [verifyBackplaneConfiguration, hfp]
  constructor
  · intro h1 h3
    by_cases hsess : cfg.SessionDirectory.length = 0
    · by_cases hst : e.statOK fp = true
      · by_cases hop : e.openOK fp = true
        · simp [h1, h3, hsess, hst, hop]
        · simp [h1, h3, hsess, hst, hop]
      · simp [h1, h3, hsess, hst]
    · by_cases hst : e.statOK fp = true
      · by_cases hop : e.openOK fp = true
        · simp [h1, h3, hsess, hst, hop]
        · simp [h1, h3, hsess, hst, hop]
      · simp [h1, h3, hsess, hst]
  · intro h1 h3
    simp [h1, h3]

/-- Witness for C6 at a both-empty and an only-SessionDirectory-empty
configuration. -/
theorem mandatory_fields_url_and_arn_witness :
    ((verifyBackplaneConfiguration baseEnv emptyCfg).printedTemplate = true ∧
      VerifyWarning.urlMissing ∈ (verifyBackplaneConfiguration baseEnv emptyCfg).warnings ∧
      VerifyWarning.arnMissing ∈ (verifyBackplaneConfiguration baseEnv emptyCfg).warnings) ∧
    ((verifyBackplaneConfiguration baseEnv sessionOnlyEmptyCfg).printedTemplate = false ∧
      (verifyBackplaneConfiguration baseEnv sessionOnlyEmptyCfg).result = Except.ok ()) :=
  ⟨(mandatory_fields_url_and_arn baseEnv emptyCfg
      "/home/user/.config/backplane/config.json" rfl).1 rfl rfl,
   (mandatory_fields_url_and_arn baseEnv sessionOnlyEmptyCfg
      "/home/user/.config/backplane/config.json" rfl).2 (by decide) (by decide)⟩

/-- C7 (source defect per the spec's design notes, section 9): with a
configured, parseable proxy the final connection check assigns a
proxy-pinned transport to the process-wide http.DefaultTransport, so the
shared global transport state after the call differs from the pristine
state it started from — through testHTTPRequestToBackplaneAPI and through
its caller CheckAPIConnection alike. -/
theorem connection_check_mutates_default_transport :
    (testHTTPRequestToBackplaneAPI baseEnv { defaultTransportProxy := none } baseCfg).2 =
      { defaultTransportProxy := some goodProxy } ∧
    (testHTTPRequestToBackplaneAPI baseEnv { defaultTransportProxy := none } baseCfg).2 ≠
      { defaultTransportProxy := none } ∧
    (CheckAPIConnection baseEnv { defaultTransportProxy := none } baseCfg).2 ≠
      { defaultTransportProxy := none } := by
  refine ⟨rfl, ?_, ?_⟩ <;> decide

/-- C8 counterexample: on a configuration with an empty URL the validator
itself stats, opens and dumps the on-disk configuration file. -/
theorem validator_file_io_counterexample :
    (verifyBackplaneConfiguration fileEnv emptyCfg).stattedFile = true ∧
      (verifyBackplaneConfiguration fileEnv emptyCfg).openedFile = true ∧
      (verifyBackplaneConfiguration fileEnv emptyCfg).dumpedFile = true :=
  ⟨rfl, rfl, rfl⟩

/-- C8 amended: the validator performs no file I/O when both mandatory
fields are non-empty; only when the URL or the ARN is empty does it
itself stat, open and dump the configuration file. -/
theorem validator_no_file_io_when_mandatory_present (e : Env)
    (cfg : BackplaneConfiguration)
    (h1 : cfg.URL.length ≠ 0) (h2 : cfg.AssumeInitialArn.length ≠ 0) :
    (verifyBackplaneConfiguration e cfg).stattedFile = false ∧
      (verifyBackplaneConfiguration e cfg).openedFile = false ∧
      (verifyBackplaneConfiguration e cfg).dumpedFile = false := by
  simp only [verifyBackplaneConfiguration]
  cases hfp : GetConfigFilePath e with
  | error m => simp
  | ok fp => simp [h1, h2]

/-- Witness for the amended C8: a populated configuration triggers no file
access even when the file exists. -/
theorem validator_no_file_io_when_mandatory_present_witness :
    (verifyBackplaneConfiguration fileEnv sessionOnlyEmptyCfg).stattedFile = false ∧
      (verifyBackplaneConfiguration fileEnv sessionOnlyEmptyCfg).openedFile = false ∧
      (verifyBackplaneConfiguration fileEnv sessionOnlyEmptyCfg).dumpedFile = false :=
  validator_no_file_io_when_mandatory_present fileEnv sessionOnlyEmptyCfg
    (by decide) (by decide)

/-- C9: the validator's returned error tracks the file stat, not the
missing-fields verdict: with a mandatory field empty, a missing config
file makes it return the stat error, while an existing readable file
makes it return nil despite the empty mandatory fields. -/
theorem verify_error_reflects_stat_not_verdict (e : Env) (cfg : BackplaneConfiguration)
    (fp : String) (hfp : GetConfigFilePath e = Except.ok fp)
    (hmiss : cfg.URL.length = 0 ∨ cfg.AssumeInitialArn.length = 0) :
    (e.statOK fp = false →
      (verifyBackplaneConfiguration e cfg).result = Except.error VerifyError.statErr) ∧
    (e.statOK fp = true → e.openOK fp = true →
      (verifyBackplaneConfiguration e cfg).result = Except.ok ()) := by
  simp only [verifyBackplaneConfiguration, hfp]
  constructor
  · intro hs
    rw [if_pos hmiss]
    simp [hs]
  · intro hs hop
    rw [if_pos hmiss]
    simp [hs, hop]

/-- Witness for C9: same empty configuration, stat failure vs readable file. -/
theorem verify_error_reflects_stat_not_verdict_witness :
    (verifyBackplaneConfiguration baseEnv emptyCfg).result =
        Except.error VerifyError.statErr ∧
      (verifyBackplaneConfiguration fileEnv emptyCfg).result = Except.ok () :=
  ⟨(verify_error_reflects_stat_not_verdict baseEnv emptyCfg
      "/home/user/.config/backplane/config.json" rfl (Or.inl rfl)).1 rfl,
   (verify_error_reflects_stat_not_verdict fileEnv emptyCfg
      "/home/user/.config/backplane/config.json" rfl (Or.inl rfl)).2 rfl rfl⟩

/-- C10 counterexample: with serviceURL ":" the health URL ":/healthz" is
rejected by request construction, the discarded error leaves a nil
request, and clientDo panics on the first parseable candidate — the
probe aborts instead of returning a string. -/
theorem probe_panics_on_malformed_health_url :
    getFirstWorkingProxyURL badHealthURLEnv ":" [goodProxy] = Except.error () := rfl

/-- C10 amended: the probe returns a string whenever the health URL is
accepted by request construction or no candidate parses; only the
combination of a rejected health URL with a parseable candidate panics. -/
theorem probe_total_when_health_url_wellformed (e : Env) (u : String) (s : List String)
    (h : e.newRequestOK (u ++ "/healthz") = true ∨
      ∀ p ∈ s, e.parseRequestURIOK p = false) :
    ∃ r, getFirstWorkingProxyURL e u s = Except.ok r := by
  rcases h with hreq | hall
  · simp only [getFirstWorkingProxyURL]
    induction s with
    | nil => exact ⟨"", rfl⟩
    | cons q rest ih =>
      simp only [proxyLoop]
      by_cases hq : e.parseRequestURIOK q = true
      · simp only [hq, if_true, clientDo, httpNewRequest, hreq]
        cases hpr : e.probe (u ++ "/healthz") q with
        | transportError => simpa using ih
        | status c =>
          by_cases hc : c = 200
          · exact ⟨q, by simp [hc]⟩
          · simpa [hc] using ih
      · simpa [hq] using ih
  · exact ⟨"", proxyLoop_all_fail e _ s fun q hq => Or.inl (hall q hq)⟩

/-- Witness for the amended C10 at a well-formed service URL. -/
theorem probe_total_when_health_url_wellformed_witness :
    ∃ r, getFirstWorkingProxyURL baseEnv "https://api.example.com" [goodProxy] =
      Except.ok r :=
  probe_total_when_health_url_wellformed baseEnv "https://api.example.com"
    [goodProxy] (Or.inl rfl)

end BackplaneCLI
